import Mathlib

/-!
Shallow embedding of the MedMind backend (`src/backend/server.py`).

Timestamps (`datetime` values) are modelled as integers at one-second
granularity; a calendar day `d : Int` covers the inclusive timestamp range
`[86400*d, 86400*d + 86399]`, mirroring the source's
`datetime.combine(check_date, datetime.min.time())` /
`datetime.combine(check_date, datetime.max.time())` day boundaries.
The caller's clock (`datetime.now().date()` in the source) is passed in as
the `today : Int` parameter.  Mongo `Dict[str, Any]` payload fields that no
claim inspects (refill info, AI extraction results, photos) are modelled as
`Option String` blobs.  Generated UUIDs and `created_at` stamps are passed
in as parameters.
-/

/-- One document of the `medications` collection (`Medication` model in the
source). -/
structure Medication where
  id : String
  user_id : String
  name : String
  dosage : String
  frequency : String
  time_slots : List String
  total_pills : Int
  remaining_pills : Int
  refill_info : Option String
  prescription_image : Option String
  ai_extracted_info : Option String
  created_at : Int
  is_active : Bool
deriving Repr, DecidableEq

/-- Request body of `POST /medications` (`MedicationCreateWithUser`): note
there is no `remaining_pills` field. -/
structure MedicationCreateWithUser where
  user_id : String
  name : String
  dosage : String
  frequency : String
  time_slots : List String
  total_pills : Int
  refill_info : Option String
  prescription_image : Option String
deriving Repr, DecidableEq

/-- Request body of `PUT /medications/{id}` (`MedicationUpdate`): every field
optional; `None` fields are dropped from the `$set` document. -/
structure MedicationUpdate where
  name : Option String
  dosage : Option String
  frequency : Option String
  time_slots : Option (List String)
  remaining_pills : Option Int
  refill_info : Option String
  is_active : Option Bool
deriving Repr, DecidableEq

/-- One document of the `medication_logs` collection (`MedicationLog`). -/
structure MedicationLog where
  id : String
  user_id : String
  medication_id : String
  scheduled_time : Int
  taken_at : Option Int
  status : String
  verification_photo : Option String
  ai_verification : Option String
  notes : Option String
  caregiver_notified : Bool
  created_at : Int
deriving Repr, DecidableEq

/-- Request body of `POST /medication-logs` (`MedicationLogCreate`); the
source defaults `status` to `"pending"`. -/
structure MedicationLogCreate where
  medication_id : String
  scheduled_time : Int
  status : String
deriving Repr, DecidableEq

/-- Request body of `PUT /medication-logs/{id}` (`MedicationLogUpdate`). -/
structure MedicationLogUpdate where
  taken_at : Option Int
  status : Option String
  verification_photo : Option String
  notes : Option String
deriving Repr, DecidableEq

/-- Mongo `$set` of one optional field: the update dict contains the field
only when the caller supplied a non-`None` value, so a `none` keeps the old
value and a stored field is never cleared. -/
def setOr {α : Type} (new old : Option α) : Option α :=
  match new with
  | some v => some v
  | none => old

/-- Timestamp `t` falls inside calendar day `d` (the inclusive
`day_start ≤ t ≤ day_end` range query of the source). -/
def inDay (d t : Int) : Bool :=
  decide (86400 * d ≤ t) && decide (t ≤ 86400 * d + 86399)

/-- The `day_logs` query inside `calculate_medication_streak`:
`db.medication_logs.find({"user_id": u, "scheduled_time": {"$gte": day_start,
"$lte": day_end}})`. -/
def day_logs (db : List MedicationLog) (u : String) (d : Int) :
    List MedicationLog :=
  db.filter (fun l => l.user_id == u && inDay d l.scheduled_time)

/-- `missed_count = sum(1 for log in day_logs if log.get("status") ==
"missed")`. -/
def missed_count (logs : List MedicationLog) : Nat :=
  logs.countP (fun l => l.status == "missed")

/-- The backward walk of `calculate_medication_streak`: `fuel` is the number
of loop iterations left (the source runs `for i in range(365)`), `d` the day
being checked.  An empty day or a day with a missed log breaks the loop and
returns the streak accumulated so far; otherwise the streak grows by one and
the walk moves one day back. -/
def streakFrom (db : List MedicationLog) (u : String) : Int → Nat → Nat
  | _, 0 => 0
  | d, fuel + 1 =>
    let logs := day_logs db u d
    if logs.isEmpty then 0
    else if 0 < missed_count logs then 0
    else 1 + streakFrom db u (d - 1) fuel

/-- `calculate_medication_streak(user_id)`: starts at `today`
(`datetime.now().date()` in the source, injected here) and checks at most
365 days. -/
def calculate_medication_streak (db : List MedicationLog) (u : String)
    (today : Int) : Nat :=
  streakFrom db u today 365

/-- A day qualifies for the streak: its log set is non-empty and contains no
log with status `"missed"`. -/
def dayOk (db : List MedicationLog) (u : String) (d : Int) : Bool :=
  !(day_logs db u d).isEmpty && decide (missed_count (day_logs db u d) = 0)

theorem streakFrom_succ (db : List MedicationLog) (u : String) (d : Int)
    (fuel : Nat) :
    streakFrom db u d (fuel + 1) =
      if dayOk db u d then 1 + streakFrom db u (d - 1) fuel else 0 := by
  by_cases he : (day_logs db u d).isEmpty
  · simp [streakFrom, dayOk, he]
  · by_cases hm : 0 < missed_count (day_logs db u d)
    · have hm' : ¬ missed_count (day_logs db u d) = 0 := by omega
      simp [streakFrom, dayOk, he, hm, hm']
    · have hm' : missed_count (day_logs db u d) = 0 := by omega
      simp [streakFrom, dayOk, he, hm, hm']

theorem streakFrom_le (db : List MedicationLog) (u : String) :
    ∀ (fuel : Nat) (d : Int), streakFrom db u d fuel ≤ fuel := by
  intro fuel
  induction fuel with
  | zero => intro d; simp [streakFrom]
  | succ n ih =>
      intro d
      rw [streakFrom_succ]
      by_cases h : dayOk db u d
      · simp only [h, if_true]
        have := ih (d - 1)
        omega
      · simp [h]

theorem streakFrom_congr (db1 db2 : List MedicationLog) (u : String) :
    ∀ (fuel : Nat) (d : Int),
      (∀ j : Nat, j < fuel → day_logs db1 u (d - j) = day_logs db2 u (d - j)) →
      streakFrom db1 u d fuel = streakFrom db2 u d fuel := by
  intro fuel
  induction fuel with
  | zero => intro d _; simp [streakFrom]
  | succ n ih =>
      intro d h
      have h0 : day_logs db1 u d = day_logs db2 u d := by
        have := h 0 (by omega)
        simpa using this
      rw [streakFrom_succ, streakFrom_succ]
      have hok : dayOk db1 u d = dayOk db2 u d := by
        simp [dayOk, missed_count, h0]
      rw [hok]
      by_cases hd : dayOk db2 u d
      · simp only [hd, if_true]
        have hrest : streakFrom db1 u (d - 1) n = streakFrom db2 u (d - 1) n := by
          apply ih
          intro j hj
          have := h (j + 1) (by omega)
          have e : d - 1 - (j : Int) = d - ((j + 1 : Nat) : Int) := by
            push_cast
            ring
          rw [e]
          exact this
        rw [hrest]
      · simp [hd]

theorem streakFrom_eq (db : List MedicationLog) (u : String) :
    ∀ (fuel : Nat) (d : Int) (k : Nat), k ≤ fuel →
      (∀ j : Nat, j < k → dayOk db u (d - j) = true) →
      (k < fuel → dayOk db u (d - k) = false) →
      streakFrom db u d fuel = k := by
  intro fuel
  induction fuel with
  | zero =>
      intro d k hk _ _
      have : k = 0 := by omega
      simp [streakFrom, this]
  | succ n ih =>
      intro d k hk hq hb
      rw [streakFrom_succ]
      cases k with
      | zero =>
          have hb0 : dayOk db u (d - (0 : Nat)) = false := hb (by omega)
          have : dayOk db u d = false := by simpa using hb0
          simp [this]
      | succ m =>
          have hq0 : dayOk db u d = true := by
            have := hq 0 (by omega)
            simpa using this
          simp only [hq0, if_true]
          have hrest : streakFrom db u (d - 1) n = m := by
            apply ih (d - 1) m (by omega)
            · intro j hj
              have := hq (j + 1) (by omega)
              have e : d - 1 - (j : Int) = d - ((j + 1 : Nat) : Int) := by
                push_cast
                ring
              rw [e]
              exact this
            · intro hm
              have := hb (by omega)
              have e : d - 1 - (m : Int) = d - ((m + 1 : Nat) : Int) := by
                push_cast
                ring
              rw [e]
              exact this
          omega

/-- `create_medication`: the handler copies the request body, sets
`remaining_pills = total_pills`, and builds a `Medication` with the model
defaults (fresh id, `created_at` stamp, `is_active = True`,
`ai_extracted_info = None`). -/
def create_medication (data : MedicationCreateWithUser) (newId : String)
    (created : Int) : Medication :=
  { id := newId
    user_id := data.user_id
    name := data.name
    dosage := data.dosage
    frequency := data.frequency
    time_slots := data.time_slots
    total_pills := data.total_pills
    remaining_pills := data.total_pills
    refill_info := data.refill_info
    prescription_image := data.prescription_image
    ai_extracted_info := none
    created_at := created
    is_active := true }

/-- The `$set` document of `update_medication` applied to one stored
medication: only the non-`None` fields of the request are written. -/
def applyMedicationUpdate (m : Medication) (upd : MedicationUpdate) :
    Medication :=
  { m with
    name := upd.name.getD m.name
    dosage := upd.dosage.getD m.dosage
    frequency := upd.frequency.getD m.frequency
    time_slots := upd.time_slots.getD m.time_slots
    remaining_pills := upd.remaining_pills.getD m.remaining_pills
    refill_info := setOr upd.refill_info m.refill_info
    is_active := upd.is_active.getD m.is_active }

/-- `update_dict` of `update_medication` is empty: every field was `None`
(the handler then answers 400). -/
def medicationUpdateEmpty (upd : MedicationUpdate) : Bool :=
  upd.name.isNone && upd.dosage.isNone && upd.frequency.isNone &&
    upd.time_slots.isNone && upd.remaining_pills.isNone &&
    upd.refill_info.isNone && upd.is_active.isNone

/-- `PUT /medications/{medication_id}`: 400 on an empty update, 404 when no
document matches, otherwise `$set` on the matched document. -/
def update_medication (mdb : List Medication) (medication_id : String)
    (upd : MedicationUpdate) : Except String (List Medication) :=
  if medicationUpdateEmpty upd then Except.error "No fields to update"
  else if mdb.any (fun m => m.id == medication_id) then
    Except.ok (mdb.map (fun m =>
      if m.id == medication_id then applyMedicationUpdate m upd else m))
  else Except.error "Medication not found"

/-- The `db.medications.find({"user_id": u, "is_active": True})` query used
by `get_user_medications` and by the dashboard handler. -/
def get_user_medications (mdb : List Medication) (u : String) :
    List Medication :=
  mdb.filter (fun m => m.user_id == u && m.is_active)

/-- The dashboard's pill total:
`sum([med.get("total_pills", 0) - med.get("remaining_pills", 0) for med in
medications])`. -/
def total_pills_taken (medications : List Medication) : Int :=
  (medications.map (fun med => med.total_pills - med.remaining_pills)).sum

/-- The `total_pills_taken` field of `GET /dashboard/{user_id}`: the sum is
taken over the user's active medications. -/
def dashboard_total_pills_taken (mdb : List Medication) (u : String) : Int :=
  total_pills_taken (get_user_medications mdb u)

/-- `create_medication_log`: builds a `MedicationLog` from the request body
plus the form `user_id`; `taken_at` starts as `None` and `status` is
whatever the request carried (default `"pending"`). -/
def create_medication_log (inp : MedicationLogCreate) (user_id : String)
    (newId : String) (created : Int) : MedicationLog :=
  { id := newId
    user_id := user_id
    medication_id := inp.medication_id
    scheduled_time := inp.scheduled_time
    taken_at := none
    status := inp.status
    verification_photo := none
    ai_verification := none
    notes := none
    caregiver_notified := false
    created_at := created }

/-- The `$set` document of `update_medication_log` applied to one stored
log: only non-`None` request fields are written, each independently. -/
def applyLogUpdate (l : MedicationLog) (upd : MedicationLogUpdate) :
    MedicationLog :=
  { l with
    taken_at := setOr upd.taken_at l.taken_at
    status := upd.status.getD l.status
    verification_photo := setOr upd.verification_photo l.verification_photo
    notes := setOr upd.notes l.notes }

/-- `update_dict` of `update_medication_log` is empty. -/
def logUpdateEmpty (upd : MedicationLogUpdate) : Bool :=
  upd.taken_at.isNone && upd.status.isNone &&
    upd.verification_photo.isNone && upd.notes.isNone

/-- `PUT /medication-logs/{log_id}`. -/
def update_medication_log (db : List MedicationLog) (log_id : String)
    (upd : MedicationLogUpdate) : Except String (List MedicationLog) :=
  if logUpdateEmpty upd then Except.error "No fields to update"
  else if db.any (fun l => l.id == log_id) then
    Except.ok (db.map (fun l =>
      if l.id == log_id then applyLogUpdate l upd else l))
  else Except.error "Medication log not found"

/-- The `$set` document of `mark_medication_taken` applied to one stored
log: unconditionally sets `status = "taken"` and `taken_at = now`; the
verification photo is written only when the optional parameter is truthy
(non-`None` and non-empty, Python truthiness). -/
def applyMarkTaken (l : MedicationLog) (now : Int)
    (verification_photo : Option String) : MedicationLog :=
  { l with
    status := "taken"
    taken_at := some now
    verification_photo :=
      match verification_photo with
      | some p => if p = "" then l.verification_photo else some p
      | none => l.verification_photo }

/-- `POST /medication-logs/{log_id}/take`. -/
def mark_medication_taken (db : List MedicationLog) (log_id : String)
    (now : Int) (verification_photo : Option String) :
    Except String (List MedicationLog) :=
  if db.any (fun l => l.id == log_id) then
    Except.ok (db.map (fun l =>
      if l.id == log_id then applyMarkTaken l now verification_photo else l))
  else Except.error "Medication log not found"

/-- One log row matches the `GET /medication-logs/{user_id}` query: owner
matches and `scheduled_time` lies in the optional `$gte`/`$lte` range. -/
def logMatches (u : String) (start_date end_date : Option Int)
    (l : MedicationLog) : Bool :=
  l.user_id == u &&
    (match start_date with
     | some s => decide (s ≤ l.scheduled_time)
     | none => true) &&
    (match end_date with
     | some e => decide (l.scheduled_time ≤ e)
     | none => true)

/-- Insert into a list kept sorted by `scheduled_time` descending. -/
def insertByTimeDesc (l : MedicationLog) :
    List MedicationLog → List MedicationLog
  | [] => [l]
  | x :: xs =>
    if x.scheduled_time ≤ l.scheduled_time then l :: x :: xs
    else x :: insertByTimeDesc l xs

/-- The `.sort("scheduled_time", -1)` of the query cursor. -/
def sortByTimeDesc : List MedicationLog → List MedicationLog
  | [] => []
  | x :: xs => insertByTimeDesc x (sortByTimeDesc xs)

/-- `GET /medication-logs/{user_id}`: filter by owner and optional date
range, newest first. -/
def get_user_medication_logs (db : List MedicationLog) (u : String)
    (start_date end_date : Option Int) : List MedicationLog :=
  sortByTimeDesc (db.filter (logMatches u start_date end_date))

/-- The medication invariant claimed by the spec's data model:
`remaining ≤ total`, both non-negative. -/
def medInvariant (m : Medication) : Prop :=
  0 ≤ m.remaining_pills ∧ 0 ≤ m.total_pills ∧
    m.remaining_pills ≤ m.total_pills

/-- The dose-log invariant claimed by the spec: `taken_at` is set iff the
status is `"taken"`. -/
def logInvariant (l : MedicationLog) : Prop :=
  l.taken_at.isSome = true ↔ l.status = "taken"

instance (m : Medication) : Decidable (medInvariant m) := by
  unfold medInvariant; infer_instance

instance (l : MedicationLog) : Decidable (logInvariant l) := by
  unfold logInvariant; infer_instance

theorem dayOk_eq_true_iff (db : List MedicationLog) (u : String) (d : Int) :
    dayOk db u d = true ↔
      (day_logs db u d ≠ [] ∧
        ∀ l ∈ day_logs db u d, l.status ≠ "missed") := by
  simp only [dayOk, Bool.and_eq_true, Bool.not_eq_true', decide_eq_true_eq,
    List.isEmpty_eq_false, missed_count, List.countP_eq_zero, beq_iff_eq, Ne]

theorem dayOk_eq_false_iff (db : List MedicationLog) (u : String) (d : Int) :
    dayOk db u d = false ↔
      (day_logs db u d = [] ∨
        ∃ l ∈ day_logs db u d, l.status = "missed") := by
  rw [← Bool.not_eq_true, dayOk_eq_true_iff]
  push_neg
  constructor
  · intro h
    by_cases he : day_logs db u d = []
    · exact Or.inl he
    · obtain ⟨l, hl, hs⟩ := h he
      exact Or.inr ⟨l, hl, hs⟩
  · rintro (he | ⟨l, hl, hs⟩)
    · intro h; exact absurd he h
    · intro _; exact ⟨l, hl, hs⟩

/-- One all-`"taken"` dose log placed on calendar day `-i`. -/
def takenLog (i : Nat) : MedicationLog :=
  { id := toString i
    user_id := "u"
    medication_id := "m"
    scheduled_time := -(86400 * (i : Int))
    taken_at := some 0
    status := "taken"
    verification_photo := none
    ai_verification := none
    notes := none
    caregiver_notified := false
    created_at := 0 }

/-- A log store holding one `"taken"` log on each of the 366 days
`0, -1, …, -365` and nothing before that. -/
def db366 : List MedicationLog := (List.range 366).map takenLog

theorem takenLog_mem_day (i : Nat) (h : i < 366) :
    takenLog i ∈ day_logs db366 "u" (0 - (i : Int)) := by
  apply List.mem_filter.mpr
  refine ⟨List.mem_map_of_mem _ (List.mem_range.mpr h), ?_⟩
  simp only [takenLog, inDay, Bool.and_eq_true, decide_eq_true_eq, beq_self_eq_true,
    true_and]
  omega

theorem db366_no_missed (d : Int) :
    ∀ l ∈ day_logs db366 "u" d, l.status ≠ "missed" := by
  intro l hl
  obtain ⟨i, _, rfl⟩ := List.mem_map.mp (List.mem_of_mem_filter hl)
  simp [takenLog]

theorem db366_dayOk (i : Nat) (h : i < 366) :
    dayOk db366 "u" (0 - (i : Int)) = true := by
  rw [dayOk_eq_true_iff]
  exact ⟨List.ne_nil_of_mem (takenLog_mem_day i h), db366_no_missed _⟩

theorem db366_day_neg366_empty :
    day_logs db366 "u" (0 - ((366 : Nat) : Int)) = [] := by
  apply List.filter_eq_nil_iff.mpr
  intro l hl
  obtain ⟨i, hi, rfl⟩ := List.mem_map.mp hl
  have hi' : i < 366 := List.mem_range.mp hi
  simp only [takenLog, inDay, Bool.and_eq_true, decide_eq_true_eq, beq_self_eq_true,
    true_and, not_and]
  intro h1 h2
  omega

theorem db366_streak : calculate_medication_streak db366 "u" 0 = 365 := by
  unfold calculate_medication_streak
  apply streakFrom_eq db366 "u" 365 0 365 le_rfl
  · intro j hj
    exact db366_dayOk j (by omega)
  · intro h
    exact absurd h (by omega)

/-- C1: if today and the prior `k-1` days each hold at least one dose log
and none of those days holds a log with status `"missed"`, and day
`today-k` either has no logs or holds a missed log, then
`calculate_medication_streak` returns exactly `k` — amended: this holds for
every `k ≤ 365` (the loop's lookback cap); beyond the cap the walk stops at
365 regardless. -/
theorem c1_streak_exact_within_lookback (db : List MedicationLog)
    (u : String) (today : Int) (k : Nat) (hk : k ≤ 365)
    (hqual : ∀ i : Nat, i < k →
      day_logs db u (today - (i : Int)) ≠ [] ∧
        ∀ l ∈ day_logs db u (today - (i : Int)), l.status ≠ "missed")
    (hbreak : day_logs db u (today - (k : Int)) = [] ∨
      ∃ l ∈ day_logs db u (today - (k : Int)), l.status = "missed") :
    calculate_medication_streak db u today = k := by
  unfold calculate_medication_streak
  apply streakFrom_eq db u 365 today k hk
  · intro j hj
    rw [dayOk_eq_true_iff]
    exact hqual j hj
  · intro _
    rw [dayOk_eq_false_iff]
    exact hbreak

/-- C1 witness: a store with no logs at all satisfies the hypotheses at
`k = 0` (day `today - 0` is empty) and the streak is 0. -/
theorem c1_witness : calculate_medication_streak [] "u" 0 = 0 :=
  c1_streak_exact_within_lookback [] "u" 0 0 (by omega)
    (fun i hi => absurd hi (by omega)) (Or.inl rfl)

/-- C1 counterexample: with 366 consecutive all-taken days ending today and
an empty day before them, the hypotheses of the claim hold at `k = 366`,
but the streak is 365, not 366 — the universally quantified claim fails for
`k` beyond the 365-day lookback cap. -/
theorem c1_counterexample :
    (∀ i : Nat, i < 366 →
      day_logs db366 "u" (0 - (i : Int)) ≠ [] ∧
        ∀ l ∈ day_logs db366 "u" (0 - (i : Int)), l.status ≠ "missed") ∧
    day_logs db366 "u" (0 - ((366 : Nat) : Int)) = [] ∧
    calculate_medication_streak db366 "u" 0 = 365 ∧
    calculate_medication_streak db366 "u" 0 ≠ 366 := by
  refine ⟨?_, db366_day_neg366_empty, db366_streak, ?_⟩
  · intro i hi
    exact ⟨List.ne_nil_of_mem (takenLog_mem_day i hi), db366_no_missed _⟩
  · rw [db366_streak]
    omega

/-- C2: the streak is always in `[0, 365]`, and it examines only the log
sets of the 365 days `today, today-1, …, today-364`: two stores that agree
on those day buckets (for the queried user) yield the same streak, however
much other data exists. -/
theorem c2_range_and_lookback (db db' : List MedicationLog) (u : String)
    (today : Int)
    (h : ∀ i : Nat, i < 365 →
      day_logs db u (today - (i : Int)) = day_logs db' u (today - (i : Int))) :
    calculate_medication_streak db u today ≤ 365 ∧
    calculate_medication_streak db u today =
      calculate_medication_streak db' u today :=
  ⟨streakFrom_le db u 365 today, streakFrom_congr db db' u 365 today h⟩

/-- C2 witness at the empty store. -/
theorem c2_witness : calculate_medication_streak [] "u" 0 ≤ 365 :=
  (c2_range_and_lookback [] [] "u" 0 (fun _ _ => rfl)).1

/-- C3: a day whose log set is non-empty and all `"pending"`/`"current"`
(no `"taken"`, no `"missed"`) counts toward the streak: with such logs for
today, the walk adds 1 and continues into the previous day rather than
stopping. -/
theorem c3_pending_day_counts (db : List MedicationLog) (u : String)
    (today : Int)
    (hne : day_logs db u today ≠ [])
    (hpc : ∀ l ∈ day_logs db u today,
      l.status = "pending" ∨ l.status = "current") :
    1 ≤ calculate_medication_streak db u today ∧
    calculate_medication_streak db u today =
      1 + streakFrom db u (today - 1) 364 := by
  have hok : dayOk db u today = true := by
    rw [dayOk_eq_true_iff]
    refine ⟨hne, ?_⟩
    intro l hl
    rcases hpc l hl with h | h <;> simp [h]
  have hstep : calculate_medication_streak db u today =
      1 + streakFrom db u (today - 1) 364 := by
    have h365 := streakFrom_succ db u today 364
    norm_num at h365
    unfold calculate_medication_streak
    rw [h365, hok]
    simp
  exact ⟨by omega, hstep⟩

/-- A single pending log scheduled on day 0. -/
def pendingLog : MedicationLog :=
  { id := "L1"
    user_id := "u"
    medication_id := "m"
    scheduled_time := 0
    taken_at := none
    status := "pending"
    verification_photo := none
    ai_verification := none
    notes := none
    caregiver_notified := false
    created_at := 0 }

/-- C3 witness: one pending log today gives a streak of at least one. -/
theorem c3_witness : 1 ≤ calculate_medication_streak [pendingLog] "u" 0 :=
  (c3_pending_day_counts [pendingLog] "u" 0 (by decide) (by decide)).1

/-- C5: the streak computation is deterministic — it is a pure function of
the store, the user and the injected `today`, and its value depends only on
the user's day-bucket view of the store: any two stores presenting the same
`day_logs` to this user give identical results. -/
theorem c5_deterministic (db db' : List MedicationLog) (u : String)
    (today : Int)
    (h : ∀ d : Int, day_logs db u d = day_logs db' u d) :
    calculate_medication_streak db u today =
      calculate_medication_streak db u today ∧
    calculate_medication_streak db u today =
      calculate_medication_streak db' u today :=
  ⟨rfl, streakFrom_congr db db' u 365 today (fun _ _ => h _)⟩

/-- A log belonging to a different user, invisible to queries for `"u"`. -/
def foreignLog : MedicationLog :=
  { id := "F1"
    user_id := "v"
    medication_id := "m"
    scheduled_time := 0
    taken_at := none
    status := "missed"
    verification_photo := none
    ai_verification := none
    notes := none
    caregiver_notified := false
    created_at := 0 }

/-- C5 witness: adding another user's log leaves the streak unchanged. -/
theorem c5_witness :
    calculate_medication_streak [] "u" 0 =
      calculate_medication_streak [foreignLog] "u" 0 :=
  (c5_deterministic [] [foreignLog] "u" 0 (fun _ => rfl)).2

/-- A medication for user `"u"` with the given pill counts, active. -/
def mkMed (nm : String) (total remaining : Int) : Medication :=
  { id := nm
    user_id := "u"
    name := nm
    dosage := "10mg"
    frequency := "daily"
    time_slots := ["08:00"]
    total_pills := total
    remaining_pills := remaining
    refill_info := none
    prescription_image := none
    ai_extracted_info := none
    created_at := 0
    is_active := true }

/-- An inactive medication, excluded from the dashboard query. -/
def inactiveMed : Medication :=
  { mkMed "D" 50 10 with is_active := false }

/-- C4: the dashboard's `total_pills_taken` is the unclamped sum of
`total_pills - remaining_pills` over the user's active medications: an
empty list gives 0, the A/B scenario gives 5, a medication with more
remaining than total pills drives the sum negative, and inactive
medications are excluded by the query. -/
theorem c4_total_pills_taken :
    (∀ medications : List Medication,
      total_pills_taken medications =
        (medications.map
          (fun med => med.total_pills - med.remaining_pills)).sum) ∧
    (∀ (mdb : List Medication) (u : String),
      dashboard_total_pills_taken mdb u =
        total_pills_taken (get_user_medications mdb u)) ∧
    total_pills_taken [] = 0 ∧
    total_pills_taken [mkMed "A" 30 25, mkMed "B" 20 20] = 5 ∧
    ((mkMed "C" 10 15).total_pills < (mkMed "C" 10 15).remaining_pills ∧
      total_pills_taken [mkMed "C" 10 15] < 0) ∧
    dashboard_total_pills_taken
      [mkMed "A" 30 25, mkMed "B" 20 20, inactiveMed] "u" = 5 := by
  refine ⟨fun _ => rfl, fun _ _ => rfl, rfl, by decide, ⟨by decide, by decide⟩,
    by decide⟩

/-- A well-formed create request with 30 pills. -/
def sampleMedCreate : MedicationCreateWithUser :=
  { user_id := "u"
    name := "A"
    dosage := "10mg"
    frequency := "daily"
    time_slots := ["08:00"]
    total_pills := 30
    refill_info := none
    prescription_image := none }

/-- A create request carrying a negative pill count (the handler does not
validate it). -/
def negMedCreate : MedicationCreateWithUser :=
  { sampleMedCreate with total_pills := -5 }

/-- An update that only sets `remaining_pills := 50`. -/
def remaining50Update : MedicationUpdate :=
  { name := none
    dosage := none
    frequency := none
    time_slots := none
    remaining_pills := some 50
    refill_info := none
    is_active := none }

/-- C6 counterexample: a freshly created medication (total 30, remaining
30) satisfies the invariant, but the exposed `update_medication` accepts
`remaining_pills := 50` unchecked, yielding `remaining > total`; and a
create request with a negative `total_pills` yields a negative pair.  The
claim that every create/update preserves `0 ≤ remaining ≤ total` is
false. -/
theorem c6_counterexample :
    medInvariant (create_medication sampleMedCreate "m1" 0) ∧
    update_medication [create_medication sampleMedCreate "m1" 0] "m1"
        remaining50Update =
      Except.ok [applyMedicationUpdate (create_medication sampleMedCreate "m1" 0)
        remaining50Update] ∧
    ¬ medInvariant (applyMedicationUpdate
        (create_medication sampleMedCreate "m1" 0) remaining50Update) ∧
    ¬ medInvariant (create_medication negMedCreate "m2" 0) := by
  refine ⟨by decide, rfl, by decide, by decide⟩

/-- C6 amended: only creation is invariant-preserving — `create_medication`
initializes `remaining_pills = total_pills`, so whenever the caller-supplied
`total_pills` is non-negative the created medication satisfies
`0 ≤ remaining ≤ total`; `update_medication` applies caller-supplied values
without validation and does not preserve the invariant. -/
theorem c6_create_establishes_invariant (data : MedicationCreateWithUser)
    (newId : String) (created : Int) (h : 0 ≤ data.total_pills) :
    medInvariant (create_medication data newId created) :=
  ⟨h, h, le_refl _⟩

/-- C6 witness. -/
theorem c6_witness : medInvariant (create_medication sampleMedCreate "m1" 0) :=
  c6_create_establishes_invariant sampleMedCreate "m1" 0 (by decide)

/-- A log-create request with the default `"pending"` status. -/
def samplePendingCreate : MedicationLogCreate :=
  { medication_id := "m"
    scheduled_time := 0
    status := "pending" }

/-- An update that only sets `status := "taken"` (no `taken_at`). -/
def statusTakenOnlyUpdate : MedicationLogUpdate :=
  { taken_at := none
    status := some "taken"
    verification_photo := none
    notes := none }

/-- An update that only sets `status := "pending"`. -/
def statusPendingUpdate : MedicationLogUpdate :=
  { statusTakenOnlyUpdate with status := some "pending" }

/-- An update that only sets `status := "missed"`. -/
def statusMissedUpdate : MedicationLogUpdate :=
  { statusTakenOnlyUpdate with status := some "missed" }

/-- C7 counterexample: a freshly created pending log satisfies the
invariant, but the exposed `update_medication_log` accepts
`status := "taken"` with no `taken_at`, producing a reachable log whose
status is `"taken"` while `taken_at` is unset — the "iff" fails. -/
theorem c7_counterexample :
    logInvariant (create_medication_log samplePendingCreate "u" "L1" 0) ∧
    update_medication_log [create_medication_log samplePendingCreate "u" "L1" 0]
        "L1" statusTakenOnlyUpdate =
      Except.ok [applyLogUpdate
        (create_medication_log samplePendingCreate "u" "L1" 0)
        statusTakenOnlyUpdate] ∧
    (applyLogUpdate (create_medication_log samplePendingCreate "u" "L1" 0)
        statusTakenOnlyUpdate).status = "taken" ∧
    (applyLogUpdate (create_medication_log samplePendingCreate "u" "L1" 0)
        statusTakenOnlyUpdate).taken_at = none ∧
    ¬ logInvariant (applyLogUpdate
        (create_medication_log samplePendingCreate "u" "L1" 0)
        statusTakenOnlyUpdate) := by
  refine ⟨by decide, rfl, rfl, rfl, by decide⟩

/-- C7 amended: the invariant `taken_at` set iff status `"taken"` holds for
every log produced by `mark_medication_taken` (which writes both fields
together) and for every freshly created log whose requested status is not
`"taken"`; `update_medication_log` sets the two fields independently and
does not preserve it. -/
theorem c7_mark_taken_establishes_invariant (l : MedicationLog) (now : Int)
    (photo : Option String) (inp : MedicationLogCreate)
    (uid newId : String) (created : Int) (h : inp.status ≠ "taken") :
    logInvariant (applyMarkTaken l now photo) ∧
    logInvariant (create_medication_log inp uid newId created) := by
  constructor
  · simp [logInvariant, applyMarkTaken]
  · simp [logInvariant, create_medication_log, h]

/-- C7 witness. -/
theorem c7_witness :
    logInvariant (applyMarkTaken
      (create_medication_log samplePendingCreate "u" "L1" 0) 5 none) :=
  (c7_mark_taken_establishes_invariant
    (create_medication_log samplePendingCreate "u" "L1" 0) 5 none
    samplePendingCreate "u" "L1" 0 (by decide)).1

/-- C8 counterexample: the exposed operations move logs out of terminal
statuses — a log marked `"taken"` is moved back to `"pending"` by
`update_medication_log` (through the endpoint itself), and a `"missed"` log
is overwritten to `"taken"` by `mark_medication_taken`. -/
theorem c8_counterexample :
    (applyMarkTaken (create_medication_log samplePendingCreate "u" "L1" 0)
        5 none).status = "taken" ∧
    update_medication_log
        [applyMarkTaken (create_medication_log samplePendingCreate "u" "L1" 0)
          5 none] "L1" statusPendingUpdate =
      Except.ok [applyLogUpdate
        (applyMarkTaken (create_medication_log samplePendingCreate "u" "L1" 0)
          5 none) statusPendingUpdate] ∧
    (applyLogUpdate
        (applyMarkTaken (create_medication_log samplePendingCreate "u" "L1" 0)
          5 none) statusPendingUpdate).status = "pending" ∧
    (applyLogUpdate (create_medication_log samplePendingCreate "u" "L1" 0)
        statusMissedUpdate).status = "missed" ∧
    (applyMarkTaken
        (applyLogUpdate (create_medication_log samplePendingCreate "u" "L1" 0)
          statusMissedUpdate) 7 none).status = "taken" := by
  refine ⟨rfl, rfl, rfl, rfl, rfl⟩

/-- C8 amended: no terminality guard exists — `update_medication_log`
overwrites the status with exactly the caller-supplied value whatever the
current status (including `"taken"` and `"missed"`), and
`mark_medication_taken` overwrites any status with `"taken"`. -/
theorem c8_no_terminal_guard (l : MedicationLog) (upd : MedicationLogUpdate)
    (s : String) (hs : upd.status = some s) (now : Int)
    (photo : Option String) :
    (applyLogUpdate l upd).status = s ∧
    (applyMarkTaken l now photo).status = "taken" := by
  constructor
  · simp [applyLogUpdate, hs]
  · rfl

/-- C8 witness. -/
theorem c8_witness :
    (applyLogUpdate (create_medication_log samplePendingCreate "u" "L1" 0)
      statusPendingUpdate).status = "pending" :=
  (c8_no_terminal_guard (create_medication_log samplePendingCreate "u" "L1" 0)
    statusPendingUpdate "pending" rfl 0 none).1

/-- C9: querying the dose logs of a user who owns no stored logs (a
nonexistent user included) returns the empty list — the query is total and
absence of data is not an error. -/
theorem c9_unknown_user_empty (db : List MedicationLog) (u : String)
    (start_date end_date : Option Int)
    (h : ∀ l ∈ db, l.user_id ≠ u) :
    get_user_medication_logs db u start_date end_date = [] := by
  unfold get_user_medication_logs
  have hf : db.filter (logMatches u start_date end_date) = [] := by
    apply List.filter_eq_nil_iff.mpr
    intro l hl
    simp [logMatches, h l hl]
  rw [hf]
  rfl

/-- C9 witness: a store holding only another user's log. -/
theorem c9_witness :
    get_user_medication_logs [foreignLog] "nobody" none none = [] :=
  c9_unknown_user_empty [foreignLog] "nobody" none none (by decide)

/-- C10: `create_medication` always initializes `remaining_pills` to the
request's `total_pills` (the request type has no remaining field to
honour), so a fresh medication contributes exactly 0 to
`total_pills_taken`. -/
theorem c10_create_remaining_eq_total (data : MedicationCreateWithUser)
    (newId : String) (created : Int) :
    (create_medication data newId created).remaining_pills =
      (create_medication data newId created).total_pills ∧
    total_pills_taken [create_medication data newId created] = 0 := by
  refine ⟨rfl, ?_⟩
  simp [total_pills_taken, create_medication]
